import Mathlib

/-!
Verification of the per-guild music player core of the Discord-Music-Bot
repository (src/music_player.py, src/main.py, src/utils.py) against its
specification.  The Python code is shallowly embedded: each relevant
function becomes a pure Lean function over an explicit player/session
state; fallible Python code (raising paths) returns Option or Except, and
externally visible side effects (voice-sink calls, notifications) are
recorded as explicit effect traces.
-/

deriving instance DecidableEq for Except

namespace MusicBot

/-- Repeat playback mode, from music_player.py lines 40-44
(RepeatMode: OFF = no repeat, ONE = repeat current, ALL = repeat all). -/
inductive RepeatMode
| off
| one
| all
deriving DecidableEq

/-- A yt-dlp entry dictionary as consumed by utils.is_valid_entry and
utils.create_ffmpeg_source.  Each field is an Option: some means the key
is present in the dict, none means absent.  Durations are modelled as
natural numbers of seconds (no claim computes with them). -/
structure Entry where
  url : Option String
  title : Option String
  webpage_url : Option String
  duration : Option Nat
  thumbnail : Option String
deriving DecidableEq

/-- The enqueued audio-source object produced by utils.create_ffmpeg_source
(lines 56-82).  The function passes entry["url"] into the FFmpegPCMAudio
constructor (field stream below) and then sets exactly the attributes
title, webpage_url, duration, thumbnail and requester on the object.  The
field url records whether the object carries an url attribute: the
FFmpegPCMAudio object exposes none and create_ffmpeg_source sets none, so
the players own readers use hasattr and getattr with a default
(music_player.py lines 404 and 453). -/
structure Source where
  stream : String
  title : String
  webpage_url : String
  duration : Option Nat
  thumbnail : Option String
  requester : String
  url : Option String
deriving DecidableEq

/-- utils.is_valid_entry (lines 36-53): the entry must contain the keys
url, title and webpage_url. -/
def is_valid_entry (e : Entry) : Bool :=
  e.url.isSome && e.title.isSome && e.webpage_url.isSome

/-- utils.create_ffmpeg_source (lines 56-82).  Accessing entry["url"] and
entry["title"] raises KeyError when the key is absent (modelled as none);
webpage_url, duration and thumbnail are read with .get defaults.  No url
attribute is stored on the produced object. -/
def create_ffmpeg_source (e : Entry) (requester : String) : Option Source :=
  match e.url, e.title with
  | some u, some t =>
      some { stream := u
             title := t
             webpage_url := e.webpage_url.getD ""
             duration := e.duration
             thumbnail := e.thumbnail
             requester := requester
             url := none }
  | _, _ => none

/-- The source that create_ffmpeg_source builds from a valid entry,
written with total field reads (equal to the match result whenever the
entry passes is_valid_entry). -/
def builtSource (requester : String) (e : Entry) : Source :=
  { stream := e.url.getD ""
    title := e.title.getD ""
    webpage_url := e.webpage_url.getD ""
    duration := e.duration
    thumbnail := e.thumbnail
    requester := requester
    url := none }

theorem create_ffmpeg_source_of_valid (e : Entry) (r : String)
    (h : is_valid_entry e = true) :
    create_ffmpeg_source e r = some (builtSource r e) := by
  unfold is_valid_entry at h
  simp only [Bool.and_eq_true, Option.isSome_iff_exists] at h
  obtain ⟨⟨⟨u, hu⟩, t, ht⟩, w, hw⟩ := h
  simp [create_ffmpeg_source, builtSource, hu, ht, hw]

/-- The discord voice-client handle (external collaborator, modelled by
its queried flags: is_connected, is_playing, is_paused). -/
structure VoiceClient where
  connected : Bool
  playing : Bool
  pausedSink : Bool
deriving DecidableEq

/-- Effect of handle.pause(): afterwards is_playing is false and
is_paused is true. -/
def VoiceClient.pauseSink (vc : VoiceClient) : VoiceClient :=
  { vc with playing := false, pausedSink := true }

/-- Effect of handle.resume(): afterwards is_playing is true and
is_paused is false. -/
def VoiceClient.resumeSink (vc : VoiceClient) : VoiceClient :=
  { vc with playing := true, pausedSink := false }

/-- Effect of handle.stop(): afterwards neither playing nor paused. -/
def VoiceClient.stopSink (vc : VoiceClient) : VoiceClient :=
  { vc with playing := false, pausedSink := false }

/-- A history record appended by MusicPlayer._get_next_song
(music_player.py lines 451-459): a plain dict of the descriptors read
back off the dequeued source object with getattr defaults. -/
structure HistEntry where
  url : String
  title : String
  webpage_url : String
  duration : Option Nat
  thumbnail : Option String
  requester : String
deriving DecidableEq

/-- The history dict built from a freshly dequeued source, with the
getattr defaults of music_player.py lines 452-459 (the source object has
no url attribute, so getattr yields the empty-string default). -/
def histOf (s : Source) : HistEntry :=
  { url := s.url.getD ""
    title := s.title
    webpage_url := s.webpage_url
    duration := s.duration
    thumbnail := s.thumbnail
    requester := s.requester }

/-- The dict literal passed to create_ffmpeg_source when restoring one
history item (music_player.py lines 423-430): every key is present. -/
def histAsEntry (h : HistEntry) : Entry :=
  { url := some h.url
    title := some h.title
    webpage_url := some h.webpage_url
    duration := h.duration
    thumbnail := h.thumbnail }

/-- The dict literal built from the current track for repeat-ONE
re-derivation (music_player.py lines 403-409): url read via hasattr with
default, every key present. -/
def currentAsEntry (c : Source) : Entry :=
  { url := some (c.url.getD "")
    title := some c.title
    webpage_url := some c.webpage_url
    duration := c.duration
    thumbnail := c.thumbnail }

/-- The mutable per-guild MusicPlayer state (music_player.py lines
81-103) that the verified operations touch.  The asyncio queue is a list
with its front at the head; volume is a rational stand-in for the float
field (no claim computes with it). -/
structure Player where
  voice_client : Option VoiceClient
  queue : List Source
  history : List HistEntry
  current : Option Source
  volume : Rat
  repeat_mode : RepeatMode
  shuffle : Bool
  paused : Bool
  current_playlist_url : Option String
  next_playlist_index : Nat
  loading_next_batch : Bool
  playlist_requester : Option String
deriving DecidableEq

/-- Truth of the Python test `self.voice_client and
self.voice_client.is_playing()`. -/
def Player.voicePlaying (p : Player) : Bool :=
  match p.voice_client with
  | some vc => vc.playing
  | none => false

/-- Truth of the Python test `self.voice_client and
self.voice_client.is_paused()`. -/
def Player.voicePaused (p : Player) : Bool :=
  match p.voice_client with
  | some vc => vc.pausedSink
  | none => false

/-- MusicPlayer.pause (music_player.py lines 199-211): pauses the sink
and sets the paused flag only when a stream is playing, otherwise
returns False leaving everything unchanged. -/
def Player.pause (p : Player) : Bool × Player :=
  match p.voice_client with
  | some vc =>
      if vc.playing then
        (true, { p with voice_client := some vc.pauseSink, paused := true })
      else (false, p)
  | none => (false, p)

/-- MusicPlayer.resume (music_player.py lines 213-225): resumes the sink
and clears the paused flag only when the sink is paused, otherwise
returns False leaving everything unchanged. -/
def Player.resume (p : Player) : Bool × Player :=
  match p.voice_client with
  | some vc =>
      if vc.pausedSink then
        (true, { p with voice_client := some vc.resumeSink, paused := false })
      else (false, p)
  | none => (false, p)

/-- MusicPlayer.shuffle_queue (music_player.py lines 173-197).  The call
random.shuffle(items) is modelled by the parameter shuffled, constrained
to be a permutation of the snapshot in the theorems; with fewer than two
items the function returns 0 without touching the queue, otherwise it
drains the queue, re-enqueues the shuffled items and returns their
count. -/
def Player.shuffle_queue (p : Player) (shuffled : List Source) : Nat × Player :=
  if p.queue.length < 2 then (0, p)
  else (shuffled.length, { p with queue := shuffled })

/-- The repeat-ALL refill of MusicPlayer._get_next_song (music_player.py
lines 419-437): when repeat is ALL, the queue is empty and history is
non-empty, every history dict is turned into a fresh source (the dict
always carries the url and title keys, so create_ffmpeg_source succeeds)
and enqueued in history order, then history is cleared. -/
def refill_from_history (p : Player) : Player :=
  if p.repeat_mode = RepeatMode.all ∧ p.queue = [] ∧ p.history ≠ [] then
    { p with
        queue := p.history.filterMap
          (fun h => create_ffmpeg_source (histAsEntry h) h.requester)
        history := [] }
  else p

/-- The dequeue of MusicPlayer._get_next_song (music_player.py lines
440-465): take the queue head (none models the empty queue, where the
real code blocks with a timeout), and when repeat is ALL append the
dequeued tracks descriptors to history. -/
def dequeue_step (p : Player) : Option (Source × Player) :=
  match p.queue with
  | [] => none
  | s :: rest =>
      if p.repeat_mode = RepeatMode.all then
        some (s, { p with queue := rest, history := p.history ++ [histOf s] })
      else
        some (s, { p with queue := rest })

/-- MusicPlayer._get_next_song after the repeat-ONE branch: the ALL
refill followed by the dequeue. -/
def get_next_rest (p : Player) : Option (Source × Player) :=
  dequeue_step (refill_from_history p)

/-- MusicPlayer._get_next_song (music_player.py lines 388-465).  With
repeat ONE and a current track, a fresh source is re-derived from the
current descriptor and the queue is untouched; if that construction
fails the mode falls back to OFF and the normal path runs.  Otherwise
the ALL refill and the dequeue run. -/
def get_next_song (p : Player) : Option (Source × Player) :=
  match p.repeat_mode, p.current with
  | RepeatMode.one, some c =>
      match create_ffmpeg_source (currentAsEntry c) c.requester with
      | some s => some (s, p)
      | none => get_next_rest { p with repeat_mode := RepeatMode.off }
  | _, _ => get_next_rest p

/-- Observable actions of the skip command handler. -/
inductive SkipAct
| stopStream
| clearRepeatOne
deriving DecidableEq

/-- The skip slash-command handler (main.py lines 482-488) on a player
whose guard checks passed: when the sink is playing or paused it first
calls voice_client.stop() and afterwards clears repeat mode ONE to OFF;
otherwise nothing happens.  The action list records the order of the two
mutations. -/
def skip_command (p : Player) : List SkipAct × Player :=
  match p.voice_client with
  | none => ([], p)
  | some vc =>
      if vc.playing || vc.pausedSink then
        let p1 : Player := { p with voice_client := some vc.stopSink }
        if p1.repeat_mode = RepeatMode.one then
          ([SkipAct.stopStream, SkipAct.clearRepeatOne],
            { p1 with repeat_mode := RepeatMode.off })
        else ([SkipAct.stopStream], p1)
      else ([], p)

/-- Outcome reported by the remove slash command. -/
inductive RemoveOutcome
| emptyQueue
| invalidPos
| removed (s : Source)
deriving DecidableEq

/-- The remove slash-command handler (main.py lines 651-693) after its
connectivity guard.  Positions are 1-based and at least 1 (enforced by
the commands Range type).  An empty queue and a position beyond the
queue length are each rejected with a warning and no mutation; otherwise
the snapshot list has item pos-1 popped and the queue is rebuilt from
the remainder. -/
def remove_command (p : Player) (pos : Nat) : RemoveOutcome × Player :=
  if p.queue = [] then (RemoveOutcome.emptyQueue, p)
  else if p.queue.length < pos then (RemoveOutcome.invalidPos, p)
  else
    match p.queue.get? (pos - 1) with
    | some r => (RemoveOutcome.removed r, { p with queue := p.queue.eraseIdx (pos - 1) })
    | none => (RemoveOutcome.invalidPos, p)

/-- Requester string used for lazily loaded tracks when no playlist
requester is recorded (music_player.py line 280). -/
def autoLoadRequester : String := "자동 로드"

/-- MusicPlayer._load_next_playlist_batch (music_player.py lines
227-315).  The resolver call YTDLSource.create_source is modelled by the
parameter res: error is a raised exception, ok is the returned batch
(the empty list also covers a None return).  The guard skips when no
playlist url is set or a batch is already loading; otherwise the
in-flight flag is set, and every completion path of the fetch clears it
(the finally block).  Valid entries become sources appended to the
queue and advance the next index by the count added; a raised resolver
error, an empty batch, or a batch with no valid entry clears the
playlist url without touching the queue. -/
def load_next_playlist_batch (p : Player) (res : Except Unit (List Entry)) : Player :=
  if p.current_playlist_url = none ∨ p.loading_next_batch then p
  else
    match res with
    | Except.error _ =>
        { p with current_playlist_url := none, loading_next_batch := false }
    | Except.ok entries =>
        if entries = [] then
          { p with current_playlist_url := none, loading_next_batch := false }
        else
          let req := p.playlist_requester.getD autoLoadRequester
          let sources := (entries.filter is_valid_entry).filterMap
            (fun e => create_ffmpeg_source e req)
          if sources.length > 0 then
            { p with
                queue := p.queue ++ sources
                next_playlist_index := p.next_playlist_index + sources.length
                loading_next_batch := false }
          else
            { p with current_playlist_url := none, loading_next_batch := false }

/-- The playlist dict returned by YTDLSource.create_source for an
initial playlist load, as read by main._process_playlist. -/
structure PlaylistData where
  original_url : Option String
  next_start_index : Option Nat
  entries : List Entry
deriving DecidableEq

/-- main._process_playlist (main.py lines 204-253): records the playlist
cursor (url, next start index with default 1, requester), then enqueues
a source for every valid entry; with no entries at all or no valid
entry the cursor url is cleared again. -/
def process_playlist (d : PlaylistData) (requester : String) (p : Player) : Player :=
  let p0 : Player :=
    { p with
        current_playlist_url := d.original_url
        next_playlist_index := d.next_start_index.getD 1
        playlist_requester := some requester }
  if d.entries = [] then { p0 with current_playlist_url := none }
  else
    let sources := (d.entries.filter is_valid_entry).filterMap
      (fun e => create_ffmpeg_source e requester)
    if sources = [] then { p0 with current_playlist_url := none }
    else { p0 with queue := p0.queue ++ sources }

/-- main._process_single_track (main.py lines 256-288): an entry failing
is_valid_entry raises ValueError before any source is constructed or
enqueued (error here); otherwise the constructed source is enqueued. -/
def process_single_track (data : Entry) (requester : String) (p : Player) :
    Except Unit Player :=
  if is_valid_entry data = false then Except.error ()
  else
    match create_ffmpeg_source data requester with
    | some s => Except.ok { p with queue := p.queue ++ [s] }
    | none => Except.error ()

/-- MusicPlayer.clear_queue (music_player.py lines 721-742): drains the
queue, clears history and resets the playlist-cursor fields, returning
the number of removed items. -/
def Player.clear_queue (p : Player) : Nat × Player :=
  (p.queue.length,
    { p with
        queue := []
        history := []
        current_playlist_url := none
        next_playlist_index := 1
        loading_next_batch := false })

/-- A player session as seen by MusicPlayer.destroy: the player state
plus the loop-task completion flag (player_task.done()) and whether the
guild id is still registered in bot.music_players. -/
structure Session where
  player : Player
  task_done : Bool
  inRegistry : Bool
deriving DecidableEq

/-- Fault injection for the teardown steps of destroy that perform
external calls and can raise: voice_client.stop(), change_presence, the
await of the cancelled loop task, voice_client.disconnect and the
departure notification send. -/
structure Faults where
  stopFails : Bool
  presenceFails : Bool
  awaitTaskFails : Bool
  disconnectFails : Bool
  notifyFails : Bool
deriving DecidableEq

/-- No step raises. -/
def noFaults : Faults :=
  { stopFails := false, presenceFails := false, awaitTaskFails := false
    disconnectFails := false, notifyFails := false }

/-- Externally observable effects of one destroy invocation. -/
inductive Eff
| stopPlayback
| clearPresence
| cancelTask
| disconnectSink
| deregister
| notifyDeparture
deriving DecidableEq

/-- Result of running destroy: the final session state, the effects that
executed in order, and whether an exception escaped destroy. -/
structure DestroyRun where
  final : Session
  effs : List Eff
  raised : Bool
deriving DecidableEq

/-- Teardown step 7 (music_player.py lines 800-812): the departure
notification, wrapped in try/except so its failure is swallowed. -/
def destroyNotifyStep (notify : Bool) (f : Faults) (s : Session) (effs : List Eff) :
    DestroyRun :=
  if notify then
    if f.notifyFails then { final := s, effs := effs, raised := false }
    else { final := s, effs := effs ++ [Eff.notifyDeparture], raised := false }
  else { final := s, effs := effs, raised := false }

/-- Teardown step 6 (music_player.py lines 795-797): remove the session
from bot.music_players when still present. -/
def destroyDeregStep (notify : Bool) (f : Faults) (s : Session) (effs : List Eff) :
    DestroyRun :=
  if s.inRegistry then
    destroyNotifyStep notify f { s with inRegistry := false } (effs ++ [Eff.deregister])
  else destroyNotifyStep notify f s effs

/-- Teardown step 5 (music_player.py lines 788-792): disconnect the sink
when connected — this await is not wrapped, so its failure escapes
destroy and skips every later step — then set voice_client to None. -/
def destroyDisconnectStep (notify : Bool) (f : Faults) (s : Session) (effs : List Eff) :
    DestroyRun :=
  match s.player.voice_client with
  | some vc =>
      if vc.connected then
        if f.disconnectFails then { final := s, effs := effs, raised := true }
        else
          destroyDeregStep notify f
            { s with player := { s.player with voice_client := none } }
            (effs ++ [Eff.disconnectSink])
      else
        destroyDeregStep notify f
          { s with player := { s.player with voice_client := none } } effs
  | none => destroyDeregStep notify f s effs

/-- Teardown step 4 (music_player.py lines 775-785): cancel the loop
task when not yet done and await it; CancelledError and any other
exception from the await are caught. -/
def destroyTaskStep (notify : Bool) (f : Faults) (s : Session) (effs : List Eff) :
    DestroyRun :=
  if s.task_done then destroyDisconnectStep notify f s effs
  else
    destroyDisconnectStep notify f { s with task_done := true }
      (effs ++ [Eff.cancelTask])

/-- Teardown step 3 (music_player.py lines 769-772): reset presence,
wrapped in try/except so its failure is swallowed. -/
def destroyPresenceStep (notify : Bool) (f : Faults) (s : Session) (effs : List Eff) :
    DestroyRun :=
  if f.presenceFails then destroyTaskStep notify f s effs
  else destroyTaskStep notify f s (effs ++ [Eff.clearPresence])

/-- Teardown step 2 (music_player.py lines 763-766): clear_queue plus
resetting current and paused; pure state updates that cannot raise. -/
def destroyClearStep (notify : Bool) (f : Faults) (s : Session) (effs : List Eff) :
    DestroyRun :=
  destroyPresenceStep notify f
    { s with player :=
        { (s.player.clear_queue).2 with current := none, paused := false } } effs

/-- MusicPlayer.destroy (music_player.py lines 744-814) with fault
injection.  Step 1 (lines 758-761) stops active playback; that call is
not wrapped, so its failure escapes destroy immediately. -/
def destroyF (notify : Bool) (f : Faults) (s : Session) : DestroyRun :=
  match s.player.voice_client with
  | some vc =>
      if vc.playing then
        if f.stopFails then { final := s, effs := [], raised := true }
        else
          destroyClearStep notify f
            { s with player := { s.player with voice_client := some vc.stopSink } }
            [Eff.stopPlayback]
      else destroyClearStep notify f s []
  | none => destroyClearStep notify f s []

/-- MusicPlayer.destroy on the fault-free path. -/
def destroy (notify : Bool) (s : Session) : DestroyRun :=
  destroyF notify noFaults s

/-- State of the lazy-loading single-flight protocol: the
loading_next_batch flag and how many batch fetches are currently
executing between the flag set (music_player.py line 243) and the
finally clear (line 315). -/
structure LoaderState where
  flag : Bool
  inFlight : Nat
deriving DecidableEq

/-- Atomic steps of the lazy loader.  A trigger attempt runs the guard
of _load_next_playlist_batch (lines 234-243): when the flag is up it
returns without fetching (busy), otherwise it sets the flag and starts a
fetch — guard and set execute with no suspension point in between, so
they form one atomic step.  A running fetch eventually completes and its
finally block clears the flag (line 315). -/
inductive LoaderStep : LoaderState → LoaderState → Prop
| busy (s : LoaderState) : s.flag = true → LoaderStep s s
| start (s : LoaderState) : s.flag = false →
    LoaderStep s { flag := true, inFlight := s.inFlight + 1 }
| complete (s : LoaderState) : 0 < s.inFlight →
    LoaderStep s { flag := false, inFlight := s.inFlight - 1 }

/-- The loader starts with the flag down and no fetch in flight
(music_player.py line 102). -/
def loaderStart : LoaderState := { flag := false, inFlight := 0 }

/-- States the loader protocol can reach from its start state. -/
def loaderReachable (s : LoaderState) : Prop :=
  Relation.ReflTransGen LoaderStep loaderStart s

theorem loader_invariant (s : LoaderState) (h : loaderReachable s) :
    s.inFlight = (if s.flag then 1 else 0) := by
  induction h with
  | refl => simp [loaderStart]
  | tail _ hstep ih =>
      cases hstep with
      | busy hf => exact ih
      | start hf => rw [hf] at ih; simp at ih; simp [ih]
      | complete hpos =>
          simp
          split at ih <;> omega

/-- Lifting create_ffmpeg_source over a list of entries that are all
valid: no entry is dropped, each is built by builtSource. -/
theorem filterMap_create_of_all_valid (r : String) (l : List Entry)
    (hl : ∀ e ∈ l, is_valid_entry e = true) :
    l.filterMap (fun e => create_ffmpeg_source e r) = l.map (builtSource r) := by
  induction l with
  | nil => rfl
  | cons e t ih =>
      rw [List.filterMap_cons, List.map_cons,
        create_ffmpeg_source_of_valid e r (hl e (List.mem_cons_self e t))]
      rw [ih (fun x hx => hl x (List.mem_cons_of_mem e hx))]

theorem filter_all_valid (l : List Entry) :
    ∀ e ∈ l.filter is_valid_entry, is_valid_entry e = true :=
  fun _ he => List.of_mem_filter he

/-- Lifting create_ffmpeg_source over restored history entries: the
history dicts always contain the required keys, so each restores. -/
theorem filterMap_create_hist (l : List HistEntry) :
    l.filterMap (fun h => create_ffmpeg_source (histAsEntry h) h.requester) =
    l.map (fun h => builtSource h.requester (histAsEntry h)) := by
  induction l with
  | nil => rfl
  | cons h t ih =>
      rw [List.filterMap_cons, List.map_cons,
        create_ffmpeg_source_of_valid (histAsEntry h) h.requester rfl, ih]

/-! Concrete sample data used by witnesses and counterexamples. -/

/-- A valid resolver entry. -/
def sampleEntry : Entry :=
  { url := some "https://stream/a"
    title := some "Song A"
    webpage_url := some "https://watch/a"
    duration := some 100
    thumbnail := none }

/-- An entry missing the url key, so is_valid_entry rejects it. -/
def invalidEntry : Entry :=
  { url := none
    title := some "bad"
    webpage_url := some "https://watch/bad"
    duration := none
    thumbnail := none }

/-- A sample enqueued source. -/
def srcA : Source :=
  { stream := "sa", title := "A", webpage_url := "wa", duration := some 10
    thumbnail := none, requester := "u", url := none }

/-- Another sample enqueued source. -/
def srcB : Source :=
  { stream := "sb", title := "B", webpage_url := "wb", duration := some 20
    thumbnail := none, requester := "u", url := none }

/-- The default volume 0.5 (config.py DEFAULT_VOLUME) as an explicit
rational. -/
def halfVolume : Rat := ⟨1, 2, by decide, by decide⟩

/-- A freshly initialised player (music_player.py lines 81-103). -/
def basePlayer : Player :=
  { voice_client := none, queue := [], history := [], current := none
    volume := halfVolume, repeat_mode := RepeatMode.off, shuffle := false
    paused := false, current_playlist_url := none, next_playlist_index := 1
    loading_next_batch := false, playlist_requester := none }

/-- A connected sink that is actively playing. -/
def playingVC : VoiceClient :=
  { connected := true, playing := true, pausedSink := false }

/-- A player with an actively playing sink. -/
def playingPlayer : Player := { basePlayer with voice_client := some playingVC }

/-- A player with a two-item queue. -/
def twoQueuePlayer : Player := { basePlayer with queue := [srcA, srcB] }

/-! Claim theorems. -/

/-- C3: at no point are two playlist batch fetches in flight
simultaneously: in every state reachable by the single-flight protocol
of _load_next_playlist_batch (atomic test-and-set of loading_next_batch
before fetching, clear on completion) at most one fetch is running. -/
theorem c3_single_flight (s : LoaderState) (h : loaderReachable s) :
    s.inFlight ≤ 1 := by
  have hinv := loader_invariant s h
  split at hinv <;> omega

theorem c3_single_flight_w :
    loaderReachable { flag := true, inFlight := 1 } ∧
    ({ flag := true, inFlight := 1 } : LoaderState).inFlight ≤ 1 := by
  have hreach : loaderReachable { flag := true, inFlight := 1 } :=
    Relation.ReflTransGen.single (LoaderStep.start loaderStart rfl)
  exact ⟨hreach, c3_single_flight _ hreach⟩

/-- C6: for a 1-based position k with 1 ≤ k ≤ N the remove command
removes exactly the k-th item, keeping the other items in relative order
(the result is the original list with index k-1 erased, i.e. the first
k-1 items followed by the items after position k); for any position
beyond N, and on an empty queue, it reports a failure and leaves the
queue unchanged.  Positions below 1 cannot reach the handler (the
command argument is declared Range at least 1). -/
theorem c6_remove (p : Player) (k : Nat) (hk : 1 ≤ k) :
    (∀ hk2 : k ≤ p.queue.length,
      remove_command p k =
        (RemoveOutcome.removed (p.queue.get ⟨k - 1, by omega⟩),
          { p with queue := p.queue.take (k - 1) ++ p.queue.drop k })) ∧
    (p.queue.length < k →
      (remove_command p k).2 = p ∧
      ((remove_command p k).1 = RemoveOutcome.emptyQueue ∨
        (remove_command p k).1 = RemoveOutcome.invalidPos)) := by
  constructor
  · intro hk2
    have hne : p.queue ≠ [] := by
      intro h
      rw [h] at hk2
      simp at hk2
      omega
    have hlt : ¬ p.queue.length < k := by omega
    have hidx : k - 1 < p.queue.length := by omega
    rw [remove_command, if_neg hne, if_neg hlt, List.get?_eq_get hidx]
    rw [List.eraseIdx_eq_take_drop_succ]
    have : k - 1 + 1 = k := by omega
    rw [this]
  · intro hgt
    by_cases hne : p.queue = []
    · simp [remove_command, hne]
    · simp [remove_command, hne, hgt]

theorem c6_remove_w :
    remove_command twoQueuePlayer 2 =
      (RemoveOutcome.removed srcB, { twoQueuePlayer with queue := [srcA] }) ∧
    remove_command twoQueuePlayer 3 = (RemoveOutcome.invalidPos, twoQueuePlayer) := by
  constructor
  · have h := (c6_remove twoQueuePlayer 2 (by decide)).1 (by decide)
    exact h
  · have h := (c6_remove twoQueuePlayer 3 (by decide)).2 (by decide)
    have hout := h.2
    rcases hout with h1 | h1
    · exact absurd h1 (by decide)
    · have h2 := h.1
      rw [Prod.ext_iff]
      exact ⟨h1, h2⟩

/-- C7: with repeat mode ALL each freshly dequeued track has its
descriptors appended to history, and an empty queue with non-empty
history is refilled with fresh sources built from the history dicts in
their original order, after which history is cleared. -/
theorem c7_repeat_all (p : Player) :
    (∀ s rest, p.repeat_mode = RepeatMode.all → p.queue = s :: rest →
      dequeue_step p =
        some (s, { p with queue := rest, history := p.history ++ [histOf s] })) ∧
    (p.repeat_mode = RepeatMode.all → p.queue = [] → p.history ≠ [] →
      refill_from_history p =
        { p with
            queue := p.history.map (fun h => builtSource h.requester (histAsEntry h))
            history := [] }) := by
  constructor
  · intro s rest hmode hq
    rw [dequeue_step]
    rw [hq]
    simp [hmode]
  · intro hmode hq hh
    rw [refill_from_history, if_pos ⟨hmode, hq, hh⟩, filterMap_create_hist]

/-- A history record for the witnesses. -/
def histA : HistEntry := histOf srcA

/-- Repeat-ALL player whose queue has drained while history holds one
track. -/
def allEmptyPlayer : Player :=
  { basePlayer with repeat_mode := RepeatMode.all, history := [histA] }

/-- Repeat-ALL player with one queued track. -/
def allQueuePlayer : Player :=
  { basePlayer with repeat_mode := RepeatMode.all, queue := [srcA] }

theorem c7_repeat_all_w :
    dequeue_step allQueuePlayer =
      some (srcA, { allQueuePlayer with queue := [], history := [histOf srcA] }) ∧
    refill_from_history allEmptyPlayer =
      { allEmptyPlayer with
          queue := [builtSource histA.requester (histAsEntry histA)]
          history := [] } := by
  constructor
  · have h := (c7_repeat_all allQueuePlayer).1 srcA [] rfl rfl
    exact h
  · have h := (c7_repeat_all allEmptyPlayer).2 rfl rfl (by decide)
    exact h

/-- C8: shuffling a queue of at most one item returns 0 and leaves the
player unchanged; shuffling N at least 2 items returns N and the new
queue contents (the output of random.shuffle, any permutation of the
snapshot) are a permutation of the original queue. -/
theorem c8_shuffle (p : Player) (shuffled : List Source)
    (hperm : shuffled.Perm p.queue) :
    (p.queue.length ≤ 1 → p.shuffle_queue shuffled = (0, p)) ∧
    (2 ≤ p.queue.length →
      (p.shuffle_queue shuffled).1 = p.queue.length ∧
      ((p.shuffle_queue shuffled).2).queue.Perm p.queue ∧
      (p.shuffle_queue shuffled).2 = { p with queue := shuffled }) := by
  constructor
  · intro h
    rw [Player.shuffle_queue, if_pos (by omega)]
  · intro h
    rw [Player.shuffle_queue, if_neg (by omega)]
    exact ⟨hperm.length_eq, hperm, rfl⟩

theorem c8_shuffle_w :
    (twoQueuePlayer.shuffle_queue [srcB, srcA]).1 = 2 ∧
    ((twoQueuePlayer.shuffle_queue [srcB, srcA]).2).queue.Perm twoQueuePlayer.queue ∧
    (basePlayer.shuffle_queue []) = (0, basePlayer) := by
  have h := (c8_shuffle twoQueuePlayer [srcB, srcA] (by decide)).2 (by decide)
  have h0 := (c8_shuffle basePlayer [] (by decide)).1 (by decide)
  exact ⟨h.1, h.2.1, h0⟩

/-- C9: pause returns False and changes nothing when no stream is
playing; resume returns False and changes nothing when the sink is not
paused; on success pause pauses the sink and sets only the paused flag,
resume resumes the sink and clears only the paused flag, all other
player fields untouched (expressed by the full structure-update
equality). -/
theorem c9_pause_resume (p : Player) :
    (p.voicePlaying = false → p.pause = (false, p)) ∧
    (p.voicePaused = false → p.resume = (false, p)) ∧
    (p.voicePlaying = true →
      p.pause =
        (true, { p with voice_client := p.voice_client.map VoiceClient.pauseSink
                        paused := true })) ∧
    (p.voicePaused = true →
      p.resume =
        (true, { p with voice_client := p.voice_client.map VoiceClient.resumeSink
                        paused := false })) := by
  cases hvc : p.voice_client with
  | none =>
      refine ⟨?_, ?_, ?_, ?_⟩ <;> intro h <;>
        simp [Player.voicePlaying, Player.voicePaused, hvc] at h <;>
        simp [Player.pause, Player.resume, hvc]
  | some vc =>
      refine ⟨?_, ?_, ?_, ?_⟩ <;> intro h <;>
        simp [Player.voicePlaying, Player.voicePaused, hvc] at h <;>
        simp [Player.pause, Player.resume, hvc, h]

theorem c9_pause_resume_w :
    playingPlayer.pause =
      (true, { playingPlayer with
                 voice_client := playingPlayer.voice_client.map VoiceClient.pauseSink
                 paused := true }) ∧
    basePlayer.pause = (false, basePlayer) ∧
    basePlayer.resume = (false, basePlayer) := by
  refine ⟨(c9_pause_resume playingPlayer).2.2.1 (by decide), ?_, ?_⟩
  · exact (c9_pause_resume basePlayer).1 (by decide)
  · exact (c9_pause_resume basePlayer).2.1 (by decide)

/-- A player with an active playlist cursor, about to lazy-load the next
batch (example scenario: offset 11). -/
def playlistPlayer : Player :=
  { basePlayer with
      current_playlist_url := some "https://playlist"
      next_playlist_index := 11
      playlist_requester := some "user" }

/-- C4: when the batch fetch actually starts (cursor set, no fetch in
flight) then on a successful fetch with at least one valid entry every
valid entry is appended to the queue in order and the cursor offset
advances by exactly the count appended; on a raised resolver error, an
empty batch, or a batch without a single valid entry, the playlist url
is cleared and the queue is untouched; and on every completion path the
in-flight flag ends cleared. -/
theorem c4_batch (p : Player) (hurl : p.current_playlist_url ≠ none)
    (hload : p.loading_next_batch = false) :
    (∀ entries : List Entry, entries.filter is_valid_entry ≠ [] →
      load_next_playlist_batch p (Except.ok entries) =
        { p with
            queue := p.queue ++ (entries.filter is_valid_entry).map
              (builtSource (p.playlist_requester.getD autoLoadRequester))
            next_playlist_index :=
              p.next_playlist_index + (entries.filter is_valid_entry).length
            loading_next_batch := false }) ∧
    (load_next_playlist_batch p (Except.error ()) =
      { p with current_playlist_url := none, loading_next_batch := false }) ∧
    (∀ entries : List Entry, entries.filter is_valid_entry = [] →
      load_next_playlist_batch p (Except.ok entries) =
        { p with current_playlist_url := none, loading_next_batch := false }) := by
  have hguard : ¬ (p.current_playlist_url = none ∨ p.loading_next_batch = true) := by
    simp [hurl, hload]
  refine ⟨?_, ?_, ?_⟩
  · intro entries hvne
    have hne : entries ≠ [] := by
      intro h
      rw [h] at hvne
      simp at hvne
    have hmap := filterMap_create_of_all_valid
      (p.playlist_requester.getD autoLoadRequester)
      (entries.filter is_valid_entry) (filter_all_valid entries)
    have hpos : 0 < (entries.filter is_valid_entry).length := List.length_pos.mpr hvne
    rw [load_next_playlist_batch, if_neg hguard]
    simp only [hmap, if_neg hne, List.length_map]
    rw [if_pos hpos]
  · rw [load_next_playlist_batch, if_neg hguard]
  · intro entries hv
    rw [load_next_playlist_batch, if_neg hguard]
    by_cases hne : entries = []
    · simp [hne]
    · have hmap := filterMap_create_of_all_valid
        (p.playlist_requester.getD autoLoadRequester)
        (entries.filter is_valid_entry) (filter_all_valid entries)
      simp only [hmap, hv, if_neg hne, List.map_nil, List.length_nil]
      simp

theorem c4_batch_w :
    load_next_playlist_batch playlistPlayer (Except.ok [sampleEntry, invalidEntry]) =
      { playlistPlayer with
          queue := [builtSource "user" sampleEntry]
          next_playlist_index := 12
          loading_next_batch := false } ∧
    load_next_playlist_batch playlistPlayer (Except.error ()) =
      { playlistPlayer with current_playlist_url := none, loading_next_batch := false } ∧
    load_next_playlist_batch playlistPlayer (Except.ok [invalidEntry]) =
      { playlistPlayer with current_playlist_url := none, loading_next_batch := false } := by
  have h := c4_batch playlistPlayer (by decide) rfl
  refine ⟨?_, h.2.1, ?_⟩
  · have h1 := h.1 [sampleEntry, invalidEntry] (by decide)
    rw [h1]
    decide
  · exact h.2.2 [invalidEntry] (by decide)

/-- A playing player in repeat-ONE mode with a current track and one
queued track. -/
def onePlayingPlayer : Player :=
  { basePlayer with
      voice_client := some playingVC
      repeat_mode := RepeatMode.one
      current := some srcA
      queue := [srcB] }

/-- C5 counterexample: the skip handler (main.py lines 482-488) calls
voice_client.stop() before clearing repeat mode ONE, not after, so the
claimed order (clear first, then stop) does not hold on the code. -/
theorem c5_counterexample :
    (skip_command onePlayingPlayer).1 = [SkipAct.stopStream, SkipAct.clearRepeatOne] ∧
    (skip_command onePlayingPlayer).1 ≠ [SkipAct.clearRepeatOne, SkipAct.stopStream] := by
  decide

/-- C5 amended: on a skip with an active stream and repeat mode ONE the
handler forcibly stops the stream and then clears repeat ONE to OFF;
both mutations complete in the same atomic step (no suspension point
between them, and the completion callback only runs later), so the
normal completion path still advances: after skip the mode is OFF and
the next-song selection dequeues the next queued track instead of
re-deriving the current one. -/
theorem c5_skip (p : Player) (vc : VoiceClient) (hvc : p.voice_client = some vc)
    (hact : (vc.playing || vc.pausedSink) = true)
    (hmode : p.repeat_mode = RepeatMode.one) :
    (skip_command p).1 = [SkipAct.stopStream, SkipAct.clearRepeatOne] ∧
    ((skip_command p).2).repeat_mode = RepeatMode.off ∧
    (∀ s rest, p.queue = s :: rest →
      get_next_song ((skip_command p).2) =
        some (s, { (skip_command p).2 with queue := rest })) := by
  have hskip : skip_command p =
      ([SkipAct.stopStream, SkipAct.clearRepeatOne],
        { p with voice_client := some vc.stopSink, repeat_mode := RepeatMode.off }) := by
    rw [skip_command, hvc]
    simp [hact, hmode]
  refine ⟨by rw [hskip], by rw [hskip], ?_⟩
  intro s rest hq
  rw [hskip]
  simp [get_next_song, get_next_rest, refill_from_history, dequeue_step, hq]

theorem c5_skip_w :
    (skip_command onePlayingPlayer).1 = [SkipAct.stopStream, SkipAct.clearRepeatOne] ∧
    ((skip_command onePlayingPlayer).2).repeat_mode = RepeatMode.off ∧
    get_next_song ((skip_command onePlayingPlayer).2) =
      some (srcB, { (skip_command onePlayingPlayer).2 with queue := [] }) := by
  have h := c5_skip onePlayingPlayer playingVC rfl (by decide) rfl
  exact ⟨h.1, h.2.1, h.2.2 srcB [] rfl⟩

/-- A live session: playing sink, one queued track, loop task running,
registered in bot.music_players. -/
def liveSession : Session :=
  { player := { basePlayer with voice_client := some playingVC, queue := [srcA] }
    task_done := false
    inRegistry := true }

/-- Faults where only voice_client.disconnect raises. -/
def disconnectFault : Faults := { noFaults with disconnectFails := true }

/-- Faults in all three try/except-wrapped steps. -/
def swallowedFaults : Faults :=
  { noFaults with presenceFails := true, awaitTaskFails := true, notifyFails := true }

/-- C1: destroy carries no idempotency guard, so a second invocation on
the already-torn-down session is not a no-op: it re-runs the teardown
sequence and re-emits the presence reset and the departure notification
(music_player.py lines 744-814 test individual fields but never whether
a teardown already ran). -/
theorem c1_destroy_not_idempotent :
    (destroy true (destroy true liveSession).final).effs =
      [Eff.clearPresence, Eff.notifyDeparture] ∧
    (destroy true (destroy true liveSession).final).effs ≠ [] := by decide

/-- C2 counterexample: the await of voice_client.disconnect
(music_player.py line 789) is not wrapped, so a failure there escapes
destroy and the session is never removed from the registry. -/
theorem c2_counterexample :
    liveSession.inRegistry = true ∧
    (destroyF false disconnectFault liveSession).raised = true ∧
    Eff.deregister ∉ (destroyF false disconnectFault liveSession).effs := by decide

/-- C2 amended: only the presence reset, the loop-task await and the
departure notification are isolated: as long as neither stopping
playback nor disconnecting the sink raises, destroy never propagates an
exception, reaches the same final state as the fault-free run, and the
registry removal still executes. -/
theorem c2_amended (s : Session) (notify : Bool) (f : Faults)
    (hstop : f.stopFails = false) (hdisc : f.disconnectFails = false) :
    (destroyF notify f s).raised = false ∧
    (destroyF notify f s).final = (destroyF notify noFaults s).final ∧
    (s.inRegistry = true → Eff.deregister ∈ (destroyF notify f s).effs) := by
  obtain ⟨fs, fp, fa, fd, fn⟩ := f
  simp only at hstop hdisc
  subst hstop
  subst hdisc
  obtain ⟨pl, td, reg⟩ := s
  obtain ⟨ovc, q, hist, cur, vol, rm, sh, pa, cpu, npi, lnb, pr⟩ := pl
  rcases ovc with _ | ⟨conn, play, paus⟩
  · cases fp <;> cases fn <;> cases td <;> cases reg <;> cases notify <;>
      simp [destroyF, destroyClearStep, destroyPresenceStep, destroyTaskStep,
        destroyDisconnectStep, destroyDeregStep, destroyNotifyStep, noFaults,
        Player.clear_queue]
  · cases conn <;> cases play <;>
      cases fp <;> cases fn <;> cases td <;> cases reg <;> cases notify <;>
      simp [destroyF, destroyClearStep, destroyPresenceStep, destroyTaskStep,
        destroyDisconnectStep, destroyDeregStep, destroyNotifyStep, noFaults,
        Player.clear_queue, VoiceClient.stopSink]

theorem c2_amended_w :
    (destroyF true swallowedFaults liveSession).raised = false ∧
    (destroyF true swallowedFaults liveSession).final =
      (destroyF true noFaults liveSession).final ∧
    Eff.deregister ∈ (destroyF true swallowedFaults liveSession).effs := by
  have h := c2_amended liveSession true swallowedFaults rfl rfl
  exact ⟨h.1, h.2.1, h.2.2 rfl⟩

/-- C10 counterexample: the source object enqueued for a perfectly valid
entry carries no url attribute — create_ffmpeg_source passes the stream
url into the FFmpegPCMAudio constructor but never stores it on the
object (utils.py lines 74-79), which is why music_player.py reads it
back with hasattr and a getattr default (lines 404, 453). -/
theorem c10_counterexample :
    is_valid_entry sampleEntry = true ∧
    process_single_track sampleEntry "user" basePlayer =
      Except.ok { basePlayer with queue := [builtSource "user" sampleEntry] } ∧
    (builtSource "user" sampleEntry).url = none := by decide

/-- C10 amended: every enqueued source carries title, webpage_url and
requester metadata taken from its entry (and no url attribute); entries
lacking any required key are rejected by validation before a source is
constructed or enqueued on the single-track path, and on the playlist
paths exactly the valid entries are turned into sources; history-refill
dicts always contain the required keys by construction. -/
theorem c10_amended (e : Entry) (r : String) (p : Player) :
    (is_valid_entry e = true →
      create_ffmpeg_source e r = some (builtSource r e) ∧
      (builtSource r e).title = e.title.getD "" ∧
      (builtSource r e).webpage_url = e.webpage_url.getD "" ∧
      (builtSource r e).requester = r ∧
      (builtSource r e).url = none) ∧
    (is_valid_entry e = false → process_single_track e r p = Except.error ()) ∧
    (∀ h : HistEntry, is_valid_entry (histAsEntry h) = true) ∧
    (∀ d : PlaylistData, d.entries ≠ [] → d.entries.filter is_valid_entry ≠ [] →
      (process_playlist d r p).queue =
        p.queue ++ (d.entries.filter is_valid_entry).map (builtSource r)) ∧
    (∀ entries : List Entry,
      (entries.filter is_valid_entry).filterMap (fun e2 => create_ffmpeg_source e2 r) =
      (entries.filter is_valid_entry).map (builtSource r)) := by
  refine ⟨?_, ?_, ?_, ?_, ?_⟩
  · intro hv
    exact ⟨create_ffmpeg_source_of_valid e r hv, rfl, rfl, rfl, rfl⟩
  · intro hv
    simp [process_single_track, hv]
  · intro h
    rfl
  · intro d hne hvne
    have hmap := filterMap_create_of_all_valid r
      (d.entries.filter is_valid_entry) (filter_all_valid d.entries)
    have hmne : (d.entries.filter is_valid_entry).map (builtSource r) ≠ [] := by
      simpa using hvne
    rw [process_playlist]
    simp only [if_neg hne, hmap, if_neg hmne]
  · intro entries
    exact filterMap_create_of_all_valid r
      (entries.filter is_valid_entry) (filter_all_valid entries)

/-- The playlist data of the witness. -/
def samplePlaylist : PlaylistData :=
  { original_url := some "https://playlist", next_start_index := some 11
    entries := [sampleEntry, invalidEntry] }

theorem c10_amended_w :
    create_ffmpeg_source sampleEntry "user" = some (builtSource "user" sampleEntry) ∧
    process_single_track invalidEntry "user" basePlayer = Except.error () ∧
    (process_playlist samplePlaylist "user" basePlayer).queue =
      basePlayer.queue ++
        ([sampleEntry, invalidEntry].filter is_valid_entry).map (builtSource "user") := by
  refine ⟨((c10_amended sampleEntry "user" basePlayer).1 (by decide)).1,
    (c10_amended invalidEntry "user" basePlayer).2.1 (by decide), ?_⟩
  exact (c10_amended sampleEntry "user" basePlayer).2.2.2.1 samplePlaylist
    (by decide) (by decide)

end MusicBot
